import Mathlib

/-!
Verification of the crypto price-alert bot (`src/main.py`) against its
natural-language specification.

Shallow embedding conventions:
* Python floats (prices, timestamps, cooldown seconds) are modelled as `ℚ`.
* `time.time()` is modelled by a clock `ℕ → ℚ`: each call to the Python
  function consumes the next index of the clock stream.
* Fallible Python code (raised exceptions) is modelled with `Except String`;
  an `Except.error` corresponds to an uncaught Python exception escaping the
  modelled function.
* External collaborators (the HTTP price provider, SMTP, the OS sound
  player, the environment, signals) are passed in as explicit parameters.
-/

/-- A price condition, as stored by `PriceCondition.__init__` after
validation: a target price and a condition type string. -/
structure PriceCondition where
  target_price : ℚ
  condition_type : String
deriving Repr, DecidableEq

/-- `PriceCondition.__init__`: converts the target to float (identity in the
rational model) and rejects any condition type other than the two allowed
strings with a `ValueError`. -/
def PriceCondition.init (target_price : ℚ) (condition_type : String) :
    Except String PriceCondition :=
  if condition_type = "above" ∨ condition_type = "below" then
    .ok { target_price := target_price, condition_type := condition_type }
  else
    .error "ValueError: condition_type must be above or below"

/-- `PriceCondition.is_met`: `"above"` compares with `>=`, anything else
(which after `__init__` validation can only be `"below"`) with `<=`. -/
def PriceCondition.is_met (c : PriceCondition) (current_price : ℚ) : Bool :=
  if c.condition_type = "above" then
    decide (current_price ≥ c.target_price)
  else
    decide (current_price ≤ c.target_price)

/-- The market snapshot returned by `get_current_price` on success: the
`usd` price is always present, the 24h volume and change come from
`dict.get` and may be `None` (modelled `none`). -/
structure MarketData where
  price : ℚ
  volume : Option ℚ
  change : Option ℚ
deriving Repr, DecidableEq

/-- The `email` section of the persisted JSON config. -/
structure EmailConfig where
  sender_email : String
  sender_password : String
  receiver_email : String
deriving Repr, DecidableEq

/-- The `notification_preferences` section of the persisted JSON config. -/
structure NotificationPreferences where
  price_history : Bool
  volume_alert : Bool
deriving Repr, DecidableEq

/-- The persisted JSON configuration. -/
structure Config where
  email : EmailConfig
  notification_preferences : NotificationPreferences
deriving Repr, DecidableEq

/-- The default config built by `load_config` when the file is missing:
email fields seeded from the environment (empty string when unset), both
notification preferences `True`. -/
def defaultConfig (env : String → Option String) : Config :=
  { email :=
      { sender_email := (env "SENDER_EMAIL").getD ""
        sender_password := (env "SENDER_PASSWORD").getD ""
        receiver_email := (env "RECEIVER_EMAIL").getD "" }
    notification_preferences :=
      { price_history := true, volume_alert := true } }

/-- `load_config`: reads the config file if it exists; on
`FileNotFoundError` builds the environment-seeded default, persists it via
`save_config`, and returns it.  The second component of the result is the
file content written by `save_config` (`none` when nothing is written). -/
def load_config (fileContents : Option Config) (env : String → Option String) :
    Config × Option Config :=
  match fileContents with
  | some c => (c, none)
  | none =>
      let c := defaultConfig env
      (c, some c)

/-- `should_send_alert`: open when no alert has been sent yet, otherwise
open iff the elapsed time since the last alert reaches the cooldown. -/
def should_send_alert (last_alert_time : Option ℚ) (cooldown_period : ℚ)
    (now : ℚ) : Bool :=
  match last_alert_time with
  | none => true
  | some t0 => decide (now - t0 ≥ cooldown_period)

/-- Observable actions of a notifier dispatch: log lines and external side
effects (an SMTP send, a sound playback). -/
inductive Event where
  | logInfo (msg : String)
  | logWarning (msg : String)
  | logError (msg : String)
  | smtpSend
  | playSound
deriving Repr, DecidableEq

/-- The log line emitted by `send_email_alert` when a credential is missing. -/
def emailCredsErrorMsg : String :=
  "Email credentials are not properly configured in the JSON config."

/-- The Python `TypeError` raised when an f-string format spec `,.2f` is
applied to `None` (the 24h volume absent from the snapshot). -/
def volumeFormatTypeError : String :=
  "TypeError: unsupported format string passed to NoneType.__format__"

/-- `send_email_alert`.  Control flow of the source, in order:
1. `if not all(self.config` `[email].values())`: any empty field logs a
   configuration error and returns — no SMTP connection is attempted;
2. the message body is built BEFORE the try block; the volume field is
   formatted with the spec `,.2f`, which raises `TypeError` when the
   volume is `None` (the change field uses no format spec, so `None`
   prints harmlessly);
3. the SMTP connect/login/send (outcome supplied by the collaborator
   parameter `smtpResult`) is wrapped in try/except: any failure is
   logged and swallowed. -/
def send_email_alert (config : Config) (market_data : MarketData)
    (smtpResult : Except String Unit) : Except String (List Event) :=
  if config.email.sender_email = "" ∨ config.email.sender_password = "" ∨
      config.email.receiver_email = "" then
    .ok [Event.logError emailCredsErrorMsg]
  else
    match market_data.volume with
    | none => .error volumeFormatTypeError
    | some _ =>
        match smtpResult with
        | .ok _ => .ok [Event.smtpSend, Event.logInfo "Email alert sent successfully"]
        | .error e => .ok [Event.logError e]

/-- `play_sound_alert`: warns and returns on any platform other than
Darwin; logs an error when the sound file is missing; otherwise runs the
player, whose failure (`subprocess.SubprocessError`) is caught and
logged.  Never raises. -/
def play_sound_alert (platformSystem : String) (soundFileExists : Bool)
    (playResult : Except String Unit) : List Event :=
  if platformSystem ≠ "Darwin" then
    [Event.logWarning "Sound alert is only configured for macOS in this script."]
  else if ¬ soundFileExists then
    [Event.logError "Sound file not found"]
  else
    match playResult with
    | .ok _ => [Event.playSound, Event.logInfo "Sound alert played successfully"]
    | .error e => [Event.logError e]

/-- The external collaborators a fan-out touches: the OS platform, the
sound file existence check, and the outcomes of the sound player and the
SMTP session. -/
structure Collab where
  platformSystem : String
  soundFileExists : Bool
  playResult : Except String Unit
  smtpResult : Except String Unit

/-- One arm of the `for alert_type in self.alert_types` dispatch:
`"email"` and `"sound"` dispatch to their channel; any other string falls
through the if/elif with no else — no dispatch, no log, no error. -/
def dispatch_alert (cb : Collab) (config : Config) (market_data : MarketData)
    (alert_type : String) : Except String (List Event) :=
  if alert_type = "email" then
    send_email_alert config market_data cb.smtpResult
  else if alert_type = "sound" then
    .ok (play_sound_alert cb.platformSystem cb.soundFileExists cb.playResult)
  else
    .ok []

/-- The fan-out loop `for alert_type in self.alert_types`: channels are
attempted in list order; an uncaught exception in one dispatch aborts the
rest (as in Python). -/
def fan_out (cb : Collab) (config : Config) (market_data : MarketData) :
    List String → Except String (List Event)
  | [] => .ok []
  | t :: ts =>
      match dispatch_alert cb config market_data t with
      | .error e => .error e
      | .ok ev =>
          match fan_out cb config market_data ts with
          | .error e => .error e
          | .ok evs => .ok (ev ++ evs)

/-- Normalisation of the list-or-single constructor parameters of
`CryptoAlertBot.__init__`: a single value is wrapped in a one-element
list, a list is taken as is. -/
def normalizeList {α : Type} (x : α ⊕ List α) : List α :=
  match x with
  | .inl a => [a]
  | .inr l => l

/-- The fields set by `CryptoAlertBot.__init__`. -/
structure CryptoAlertBot where
  coin_id : String
  conditions : List PriceCondition
  alert_types : List String
  last_alert_time : Option ℚ
  cooldown_period : ℚ
  check_interval : ℚ
  sound_file : String
  config_file : String
  running : Bool
  config : Config

/-- `CryptoAlertBot.__init__`: lower-cases the coin id, normalises the
conditions and alert types to lists, starts with no prior alert and the
running flag set, and loads (or bootstraps) the config file.  It is total:
no validation of the email credentials happens at construction. -/
def CryptoAlertBot.init (coin_id : String)
    (conditions : PriceCondition ⊕ List PriceCondition)
    (alert_types : String ⊕ List String)
    (cooldown_period check_interval : ℚ)
    (sound_file config_file : String) (fileContents : Option Config)
    (env : String → Option String) : CryptoAlertBot :=
  { coin_id := coin_id.toLower
    conditions := normalizeList conditions
    alert_types := normalizeList alert_types
    last_alert_time := none
    cooldown_period := cooldown_period
    check_interval := check_interval
    sound_file := sound_file
    config_file := config_file
    running := true
    config := (load_config fileContents env).1 }

/-- The error kinds of a failed price fetch. -/
inductive FetchError where
  | network
  | http
  | assetNotFound
  | parseError
deriving Repr, DecidableEq

/-- `get_current_price`: a successful provider response yields the
snapshot; every failure kind — `requests` network/HTTP errors, the asset
id missing from the response body, malformed JSON (`Exception`) — is
caught, logged and mapped to `None`. -/
def get_current_price (resp : Except FetchError MarketData) :
    Option MarketData :=
  match resp with
  | .ok d => some d
  | .error _ => none

/-- The bot state mutated by the monitoring loop: `last_alert_time`, plus
the index of the next `time.time()` call on the modelled clock stream. -/
structure BotState where
  last_alert_time : Option ℚ
  clk : ℕ
deriving Repr, DecidableEq

/-- The condition loop of one poll cycle (`for condition in
self.conditions`).  For each condition: `is_met` is evaluated first; only
when it holds is `should_send_alert` called (one `time.time()` tick); when
the gate is open the fan-out runs and `last_alert_time = time.time()`
consumes a second tick.  Returns the final state and the number of
fan-outs performed; an uncaught dispatch exception aborts the whole loop. -/
def check_conditions (cb : Collab) (config : Config) (clock : ℕ → ℚ)
    (cooldown_period : ℚ) (alert_types : List String)
    (market_data : MarketData) :
    List PriceCondition → BotState → Except String (BotState × ℕ)
  | [], st => .ok (st, 0)
  | c :: cs, st =>
      if c.is_met market_data.price then
        if should_send_alert st.last_alert_time cooldown_period (clock st.clk) then
          match fan_out cb config market_data alert_types with
          | .error e => .error e
          | .ok _ =>
              match check_conditions cb config clock cooldown_period
                  alert_types market_data cs
                  ⟨some (clock (st.clk + 1)), st.clk + 2⟩ with
              | .error e => .error e
              | .ok (st', n) => .ok (st', n + 1)
        else
          check_conditions cb config clock cooldown_period alert_types
            market_data cs ⟨st.last_alert_time, st.clk + 1⟩
      else
        check_conditions cb config clock cooldown_period alert_types
          market_data cs st

/-- One iteration of the `while self.running` body: fetch, and when the
fetch failed skip everything (state untouched); otherwise run the
condition loop on the snapshot. -/
def poll_cycle (cb : Collab) (config : Config) (clock : ℕ → ℚ)
    (cooldown_period : ℚ) (alert_types : List String)
    (conds : List PriceCondition) (fetchResult : Except FetchError MarketData)
    (st : BotState) : Except String (BotState × ℕ) :=
  match get_current_price fetchResult with
  | none => .ok (st, 0)
  | some md =>
      check_conditions cb config clock cooldown_period alert_types md conds st

/-- The `while self.running` loop of `start_monitoring`, fuel-bounded for
termination.  `running i` is the value of the shared shutdown flag
observed at the top of cycle `i`; `fetchResults i` is the provider
response of cycle `i`.  Returns the final state and the number of cycles
executed; an uncaught exception inside a cycle aborts the loop (and the
process). -/
def start_monitoring (cb : Collab) (config : Config) (clock : ℕ → ℚ)
    (cooldown_period : ℚ) (alert_types : List String)
    (conds : List PriceCondition)
    (fetchResults : ℕ → Except FetchError MarketData) (running : ℕ → Bool) :
    ℕ → ℕ → BotState → Except String (BotState × ℕ)
  | 0, _, st => .ok (st, 0)
  | fuel + 1, i, st =>
      if running i then
        match poll_cycle cb config clock cooldown_period alert_types conds
            (fetchResults i) st with
        | .error e => .error e
        | .ok (st', _) =>
            match start_monitoring cb config clock cooldown_period
                alert_types conds fetchResults running fuel (i + 1) st' with
            | .error e => .error e
            | .ok (stf, n) => .ok (stf, n + 1)
      else
        .ok (st, 0)

/-- Exactly `k` consecutive poll cycles starting at cycle index `i`,
with no flag checks: the reference behaviour a clean shutdown must match. -/
def run_cycles (cb : Collab) (config : Config) (clock : ℕ → ℚ)
    (cooldown_period : ℚ) (alert_types : List String)
    (conds : List PriceCondition)
    (fetchResults : ℕ → Except FetchError MarketData) :
    ℕ → ℕ → BotState → Except String BotState
  | 0, _, st => .ok st
  | k + 1, i, st =>
      match poll_cycle cb config clock cooldown_period alert_types conds
          (fetchResults i) st with
      | .error e => .error e
      | .ok (st', _) =>
          run_cycles cb config clock cooldown_period alert_types conds
            fetchResults k (i + 1) st'

/-- C4: for every price `p`, an `"above"` condition with target `t` is met
iff `p ≥ t` and a `"below"` condition is met iff `p ≤ t`; at the boundary
`p = t` both directions are met. -/
theorem is_met_spec (t p : ℚ) :
    (PriceCondition.is_met ⟨t, "above"⟩ p = true ↔ p ≥ t) ∧
    (PriceCondition.is_met ⟨t, "below"⟩ p = true ↔ p ≤ t) ∧
    PriceCondition.is_met ⟨t, "above"⟩ t = true ∧
    PriceCondition.is_met ⟨t, "below"⟩ t = true := by
  refine ⟨?_, ?_, ?_, ?_⟩ <;> simp [PriceCondition.is_met]

/-- C3: the cooldown gate: before any record `allow` is `true`; after
`record(t0)`, `allow(t)` is `false` for `t0 ≤ t < t0 + W` and `true` for
`t ≥ t0 + W`. -/
theorem cooldown_window (W t0 t : ℚ) :
    should_send_alert none W t = true ∧
    (t0 ≤ t → t < t0 + W → should_send_alert (some t0) W t = false) ∧
    (t0 + W ≤ t → should_send_alert (some t0) W t = true) := by
  refine ⟨rfl, ?_, ?_⟩ <;> intro h1 <;>
    simp_all [should_send_alert, sub_lt_iff_lt_add, le_sub_iff_add_le]
  · intro h2
    linarith
  · linarith

/-- Witness for C3 at `W = 300`, `t0 = 0`: closed within the window,
open at its end, open before any record. -/
theorem cooldown_window_witness :
    should_send_alert none 300 100 = true ∧
    should_send_alert (some 0) 300 100 = false ∧
    should_send_alert (some 0) 300 300 = true :=
  ⟨(cooldown_window 300 0 100).1,
   (cooldown_window 300 0 100).2.1 (by norm_num) (by norm_num),
   (cooldown_window 300 0 300).2.2 (by norm_num)⟩

/-- C9: `PriceCondition.__init__` raises `ValueError` iff the supplied
condition type is neither `"above"` nor `"below"`; on success the stored
fields equal the supplied values. -/
theorem price_condition_init_spec (t : ℚ) (s : String) :
    ((∃ e, PriceCondition.init t s = .error e) ↔ (s ≠ "above" ∧ s ≠ "below")) ∧
    (s = "above" ∨ s = "below" →
      PriceCondition.init t s = .ok ⟨t, s⟩) := by
  constructor
  · constructor
    · rintro ⟨e, he⟩
      constructor
      · intro h
        simp [PriceCondition.init, h] at he
      · intro h
        simp [PriceCondition.init, h] at he
    · intro ⟨h1, h2⟩
      exact ⟨"ValueError: condition_type must be above or below",
        by simp [PriceCondition.init, h1, h2]⟩
  · intro h
    simp [PriceCondition.init, h]

/-- Witness for C9: `"sideways"` is rejected, `"above"` is accepted with
the fields stored unchanged. -/
theorem price_condition_init_witness :
    (∃ e, PriceCondition.init 64 "sideways" = .error e) ∧
    PriceCondition.init 64 "above" = .ok ⟨64, "above"⟩ :=
  ⟨(price_condition_init_spec 64 "sideways").1.2 (by decide),
   (price_condition_init_spec 64 "above").2 (Or.inl rfl)⟩

/-- C5: when the price fetch fails with any error kind, the poll cycle is
a no-op: no exception escapes (the result is `ok`), no condition is
evaluated and no fan-out occurs (fan-out count 0), and the cooldown state
is returned unchanged for the next tick. -/
theorem fetch_failure_cycle_noop (cb : Collab) (config : Config)
    (clock : ℕ → ℚ) (W : ℚ) (alert_types : List String)
    (conds : List PriceCondition) (e : FetchError) (st : BotState) :
    poll_cycle cb config clock W alert_types conds (.error e) st =
      .ok (st, 0) :=
  rfl

/-- C7: whenever any of the three email credentials is the empty string,
`send_email_alert` logs the configuration error once and returns: no SMTP
connection is attempted (no `smtpSend` event) and no exception is raised,
whatever the snapshot and whatever the SMTP collaborator would do.
Moreover this is not a startup failure: constructing the bot with that
same credential-deficient config succeeds and leaves it running. -/
theorem email_empty_creds_no_smtp (config : Config) (md : MarketData)
    (smtp : Except String Unit)
    (h : config.email.sender_email = "" ∨ config.email.sender_password = "" ∨
      config.email.receiver_email = "") :
    send_email_alert config md smtp = .ok [Event.logError emailCredsErrorMsg] ∧
    ∀ coin conds ats W interval sf cf env,
      (CryptoAlertBot.init coin conds ats W interval sf cf (some config)
        env).running = true ∧
      (CryptoAlertBot.init coin conds ats W interval sf cf (some config)
        env).config = config := by
  refine ⟨by simp [send_email_alert, h], ?_⟩
  intro coin conds ats W interval sf cf env
  exact ⟨rfl, rfl⟩

/-- Witness for C7: empty sender with the other fields set, a snapshot
with the volume absent, a healthy SMTP collaborator — the attempt is a
single logged error, and the bot constructed with that config runs. -/
theorem email_empty_creds_no_smtp_witness :
    send_email_alert ⟨⟨"", "pw", "rcv"⟩, ⟨true, true⟩⟩ ⟨100, none, none⟩
      (.ok ()) = .ok [Event.logError emailCredsErrorMsg] ∧
    (CryptoAlertBot.init "bitcoin" (.inr []) (.inl "sound") 300 60 "snd" "cfg"
      (some ⟨⟨"", "pw", "rcv"⟩, ⟨true, true⟩⟩) (fun _ => none)).running = true :=
  ⟨(email_empty_creds_no_smtp ⟨⟨"", "pw", "rcv"⟩, ⟨true, true⟩⟩ ⟨100, none, none⟩
      (.ok ()) (Or.inl rfl)).1,
   ((email_empty_creds_no_smtp ⟨⟨"", "pw", "rcv"⟩, ⟨true, true⟩⟩ ⟨100, none, none⟩
      (.ok ()) (Or.inl rfl)).2 "bitcoin" (.inr []) (.inl "sound") 300 60 "snd"
      "cfg" (fun _ => none)).1⟩

/-- C8: loading with a missing config file and none of the three
environment variables set yields the documented default — empty email
strings, both notification preferences true — and persists exactly that
default to the file. -/
theorem config_bootstrap (env : String → Option String)
    (h1 : env "SENDER_EMAIL" = none) (h2 : env "SENDER_PASSWORD" = none)
    (h3 : env "RECEIVER_EMAIL" = none) :
    load_config none env =
      (⟨⟨"", "", ""⟩, ⟨true, true⟩⟩, some ⟨⟨"", "", ""⟩, ⟨true, true⟩⟩) := by
  simp [load_config, defaultConfig, h1, h2, h3]

/-- Witness for C8: the empty environment. -/
theorem config_bootstrap_witness :
    load_config none (fun _ => none) =
      (⟨⟨"", "", ""⟩, ⟨true, true⟩⟩, some ⟨⟨"", "", ""⟩, ⟨true, true⟩⟩) :=
  config_bootstrap (fun _ => none) rfl rfl rfl

/-- C10: an alert-type string other than `"email"` and `"sound"` anywhere
in the list is silently skipped: its dispatch produces no event and no
error, and the fan-out over the whole list equals the fan-out with the
entry removed, so the remaining channels are still attempted in order. -/
theorem unknown_alert_type_skipped (cb : Collab) (config : Config)
    (md : MarketData) (t : String) (ts1 ts2 : List String)
    (h1 : t ≠ "email") (h2 : t ≠ "sound") :
    dispatch_alert cb config md t = .ok [] ∧
    fan_out cb config md (ts1 ++ t :: ts2) = fan_out cb config md (ts1 ++ ts2) := by
  have hd : dispatch_alert cb config md t = .ok [] := by
    simp [dispatch_alert, h1, h2]
  refine ⟨hd, ?_⟩
  induction ts1 with
  | nil =>
      simp only [List.nil_append, fan_out, hd]
      cases fan_out cb config md ts2 <;> simp
  | cons s ss ih =>
      simp only [List.cons_append, fan_out, List.append_eq, ih]

/-- Witness for C10: the unrecognised type `"sms"` between `"sound"` and
`"email"` changes nothing about the fan-out. -/
theorem unknown_alert_type_skipped_witness :
    dispatch_alert ⟨"Darwin", true, .ok (), .ok ()⟩
      ⟨⟨"a", "b", "c"⟩, ⟨true, true⟩⟩ ⟨100, some 5, some 1⟩ "sms" = .ok [] ∧
    fan_out ⟨"Darwin", true, .ok (), .ok ()⟩ ⟨⟨"a", "b", "c"⟩, ⟨true, true⟩⟩
        ⟨100, some 5, some 1⟩ (["sound"] ++ "sms" :: ["email"]) =
      fan_out ⟨"Darwin", true, .ok (), .ok ()⟩ ⟨⟨"a", "b", "c"⟩, ⟨true, true⟩⟩
        ⟨100, some 5, some 1⟩ (["sound"] ++ ["email"]) :=
  unknown_alert_type_skipped ⟨"Darwin", true, .ok (), .ok ()⟩
    ⟨⟨"a", "b", "c"⟩, ⟨true, true⟩⟩ ⟨100, some 5, some 1⟩ "sms"
    ["sound"] ["email"] (by decide) (by decide)

/-- C2 counterexample (code bug): with email credentials configured, one
met condition, an open gate, and a snapshot whose 24h volume is absent
(`usd_24h_vol` missing from the provider response), the email body
formatting — executed before the try/except of `send_email_alert` —
raises `TypeError`, which escapes the poll cycle and terminates
`start_monitoring`: the monitoring loop dies instead of skipping the
channel. -/
theorem email_fanout_volume_none_kills_loop :
    start_monitoring ⟨"Darwin", true, .ok (), .ok ()⟩
      ⟨⟨"sender", "pw", "rcv"⟩, ⟨true, true⟩⟩ (fun _ => 0) 300
      ["sound", "email"] [⟨50, "above"⟩] (fun _ => .ok ⟨100, none, some 5⟩)
      (fun _ => true) 1 0 ⟨none, 0⟩ = .error volumeFormatTypeError := by
  rfl

/-- Helper for C1: once `last_alert_time` has been recorded at `tA` and
every later clock reading stays within the cooldown window of `tA`, the
rest of the condition loop performs no further fan-out and leaves
`last_alert_time` untouched. -/
theorem check_conditions_gate_closed (cb : Collab) (config : Config)
    (clock : ℕ → ℚ) (W : ℚ) (alert_types : List String) (md : MarketData)
    (tA : ℚ) (cs : List PriceCondition) :
    ∀ clk, (∀ j, clock j - tA < W) →
    ∃ clk', check_conditions cb config clock W alert_types md cs
      ⟨some tA, clk⟩ = .ok (⟨some tA, clk'⟩, 0) := by
  induction cs with
  | nil =>
      intro clk _
      exact ⟨clk, rfl⟩
  | cons c cs ih =>
      intro clk h
      by_cases hm : c.is_met md.price
      · have hg : should_send_alert (some tA) W (clock clk) = false := by
          have hlt := h clk
          simp only [should_send_alert, ge_iff_le, decide_eq_false_iff_not, not_le]
          linarith
        obtain ⟨clk', hclk'⟩ := ih (clk + 1) h
        exact ⟨clk', by simp [check_conditions, hm, hg, hclk']⟩
      · obtain ⟨clk', hclk'⟩ := ih clk h
        exact ⟨clk', by simp [check_conditions, hm, hclk']⟩

/-- Helper for C1: with the gate open at the first clock reading, some
condition met, a successful fan-out, and all clock readings within the
window of the reading recorded after the first fan-out, the condition
loop performs exactly one fan-out and records `last_alert_time = clock 1`. -/
theorem check_conditions_first_met (cb : Collab) (config : Config)
    (clock : ℕ → ℚ) (W : ℚ) (alert_types : List String) (md : MarketData)
    (evs : List Event) (hfo : fan_out cb config md alert_types = .ok evs)
    (hdriftA : ∀ j, clock j - clock 1 < W) :
    ∀ (conds : List PriceCondition) (last0 : Option ℚ),
    should_send_alert last0 W (clock 0) = true →
    (∃ c ∈ conds, c.is_met md.price = true) →
    ∃ clk', check_conditions cb config clock W alert_types md conds
      ⟨last0, 0⟩ = .ok (⟨some (clock 1), clk'⟩, 1) := by
  intro conds
  induction conds with
  | nil =>
      intro last0 _ hmet
      simp at hmet
  | cons c cs ih =>
      intro last0 hopen hmet
      by_cases hm : c.is_met md.price
      · obtain ⟨clk', hclk'⟩ := check_conditions_gate_closed cb config clock W
          alert_types md (clock 1) cs 2 hdriftA
        exact ⟨clk', by simp [check_conditions, hm, hopen, hfo, hclk']⟩
      · have hmet' : ∃ c ∈ cs, c.is_met md.price = true := by
          rcases hmet with ⟨c', hc', hmc'⟩
          rcases List.mem_cons.mp hc' with rfl | h
          · exact absurd hmc' hm
          · exact ⟨c', h, hmc'⟩
        obtain ⟨clk', hclk'⟩ := ih last0 hopen hmet'
        exact ⟨clk', by simp [check_conditions, hm, hclk']⟩

/-- C1: in a poll cycle whose fetch succeeded, with the cooldown gate open
at the cycle start, at least two conditions met by the fetched price, a
monotone clock whose drift over the cycle stays below the cooldown window,
and a fan-out that raises no exception, exactly one notification fan-out
occurs — not one per matched condition — `last_alert_time` is recorded,
and the gate is Closed at the end of the cycle. -/
theorem single_fanout_per_cycle (cb : Collab) (config : Config)
    (clock : ℕ → ℚ) (W : ℚ) (alert_types : List String) (md : MarketData)
    (conds : List PriceCondition) (last0 : Option ℚ)
    (hmono : Monotone clock)
    (hdrift : ∀ j, clock j - clock 0 < W)
    (hopen : should_send_alert last0 W (clock 0) = true)
    (hmet : 2 ≤ conds.countP (fun c => c.is_met md.price))
    (evs : List Event)
    (hfo : fan_out cb config md alert_types = .ok evs) :
    ∃ clk', poll_cycle cb config clock W alert_types conds (.ok md)
        ⟨last0, 0⟩ = .ok (⟨some (clock 1), clk'⟩, 1) ∧
      should_send_alert (some (clock 1)) W (clock clk') = false := by
  have hdriftA : ∀ j, clock j - clock 1 < W := by
    intro j
    have h01 : clock 0 ≤ clock 1 := hmono (by omega)
    have := hdrift j
    linarith
  have hmet1 : ∃ c ∈ conds, c.is_met md.price = true := by
    have hpos : 0 < conds.countP (fun c => c.is_met md.price) := by omega
    obtain ⟨c, hc, hmc⟩ := List.countP_pos_iff.mp hpos
    exact ⟨c, hc, hmc⟩
  obtain ⟨clk', hclk'⟩ := check_conditions_first_met cb config clock W
    alert_types md evs hfo hdriftA conds last0 hopen hmet1
  refine ⟨clk', ?_, ?_⟩
  · simpa [poll_cycle, get_current_price] using hclk'
  · have hlt := hdriftA clk'
    simp only [should_send_alert, ge_iff_le, decide_eq_false_iff_not, not_le]
    linarith

/-- Witness for C1: constant clock, window 300, two met `"above"`
conditions, empty channel list (fan-out trivially succeeds), gate
initially open (`last_alert_time = None`): one fan-out, gate closed. -/
theorem single_fanout_per_cycle_witness :
    ∃ clk', poll_cycle ⟨"Darwin", true, .ok (), .ok ()⟩
        ⟨⟨"", "", ""⟩, ⟨true, true⟩⟩ (fun _ => 0) 300 [] [⟨50, "above"⟩, ⟨60, "above"⟩]
        (.ok ⟨100, some 5, some 1⟩) ⟨none, 0⟩ = .ok (⟨some 0, clk'⟩, 1) ∧
      should_send_alert (some 0) 300 0 = false :=
  single_fanout_per_cycle ⟨"Darwin", true, .ok (), .ok ()⟩
    ⟨⟨"", "", ""⟩, ⟨true, true⟩⟩ (fun _ => 0) 300 [] ⟨100, some 5, some 1⟩
    [⟨50, "above"⟩, ⟨60, "above"⟩] none monotone_const
    (fun _ => by norm_num) rfl (by decide) [] rfl

/-- C6: if the shutdown flag observed at the top of cycle `i + k` is false
while it was true for the `k` cycles before, the loop runs exactly those
`k` full cycles and stops: no fetch, evaluation or dispatch of cycle
`i + k` or later ever happens (the result only depends on the fetches of
the first `k` cycles), and no cycle is partial or duplicated (the final
state is exactly that of `k` chained poll cycles). -/
theorem shutdown_flag_stops_loop (cb : Collab) (config : Config)
    (clock : ℕ → ℚ) (W : ℚ) (alert_types : List String)
    (conds : List PriceCondition)
    (f g : ℕ → Except FetchError MarketData) (running : ℕ → Bool) (k : ℕ) :
    ∀ fuel i st,
    (∀ j, j < k → running (i + j) = true) → running (i + k) = false →
    k < fuel → (∀ j, j < k → f (i + j) = g (i + j)) →
    start_monitoring cb config clock W alert_types conds f running fuel i st =
      Except.map (fun stf => (stf, k))
        (run_cycles cb config clock W alert_types conds g k i st) := by
  induction k with
  | zero =>
      intro fuel i st _ hstop hfuel _
      match fuel, hfuel with
      | fuel + 1, _ =>
        simp only [Nat.add_zero] at hstop
        simp [start_monitoring, run_cycles, hstop, Except.map]
  | succ k ih =>
      intro fuel i st hrun hstop hfuel hfg
      match fuel, hfuel with
      | fuel + 1, hfuel =>
        have hi : running i = true := by
          have := hrun 0 (by omega)
          simpa using this
        have hf0 : f i = g i := by
          have := hfg 0 (by omega)
          simpa using this
        have hrun' : ∀ j, j < k → running (i + 1 + j) = true := by
          intro j hj
          have := hrun (j + 1) (by omega)
          rwa [show i + (j + 1) = i + 1 + j by omega] at this
        have hstop' : running (i + 1 + k) = false := by
          rwa [show i + (k + 1) = i + 1 + k by omega] at hstop
        have hfg' : ∀ j, j < k → f (i + 1 + j) = g (i + 1 + j) := by
          intro j hj
          have := hfg (j + 1) (by omega)
          rwa [show i + (j + 1) = i + 1 + j by omega] at this
        have hfuel' : k < fuel := by omega
        simp only [start_monitoring, run_cycles, hi, if_true, hf0]
        cases hpc : poll_cycle cb config clock W alert_types conds (g i) st with
        | error e => simp [Except.map]
        | ok p =>
            obtain ⟨st', m⟩ := p
            dsimp only
            rw [ih fuel (i + 1) st' hrun' hstop' hfuel' hfg']
            cases hrc : run_cycles cb config clock W alert_types conds g k
                (i + 1) st' with
            | error e => simp [Except.map]
            | ok stf => simp [Except.map]

/-- Witness for C6: the flag is observed true at cycle 0 and false at
cycle 1; with fuel 2, exactly one cycle (whose fetch fails, a no-op) runs,
and the fetch function beyond the stop index is irrelevant. -/
theorem shutdown_flag_stops_loop_witness :
    start_monitoring ⟨"Darwin", true, .ok (), .ok ()⟩
      ⟨⟨"", "", ""⟩, ⟨true, true⟩⟩ (fun _ => 0) 300 [] []
      (fun _ => .error FetchError.network) (fun i => i == 0) 2 0 ⟨none, 0⟩ =
      Except.map (fun stf => (stf, 1))
        (run_cycles ⟨"Darwin", true, .ok (), .ok ()⟩
          ⟨⟨"", "", ""⟩, ⟨true, true⟩⟩ (fun _ => 0) 300 [] []
          (fun i => if i == 0 then .error FetchError.network
            else .ok ⟨1, none, none⟩) 1 0 ⟨none, 0⟩) :=
  shutdown_flag_stops_loop ⟨"Darwin", true, .ok (), .ok ()⟩
    ⟨⟨"", "", ""⟩, ⟨true, true⟩⟩ (fun _ => 0) 300 [] []
    (fun _ => .error FetchError.network)
    (fun i => if i == 0 then .error FetchError.network else .ok ⟨1, none, none⟩)
    (fun i => i == 0) 1 2 0 ⟨none, 0⟩
    (fun j hj => by
      have hz : j = 0 := by omega
      subst hz
      rfl)
    rfl (by omega)
    (fun j hj => by
      have hz : j = 0 := by omega
      subst hz
      rfl)

/-- Counterexample for C1 as literally stated: with cooldown window 0 the
gate is open (`should_send_alert` is true before any alert), the fetch
succeeds, both conditions are met by the price — yet the cycle performs
TWO fan-outs, one per matched condition, and ends with the gate still
open, because the code re-evaluates the time-based gate at every matched
condition instead of consuming it once per cycle. -/
theorem two_fanouts_when_cooldown_zero :
    should_send_alert none 0 0 = true ∧
    poll_cycle ⟨"Darwin", true, .ok (), .ok ()⟩ ⟨⟨"", "", ""⟩, ⟨true, true⟩⟩
      (fun _ => 0) 0 [] [⟨50, "above"⟩, ⟨60, "above"⟩]
      (.ok ⟨100, some 5, some 1⟩) ⟨none, 0⟩ = .ok (⟨some 0, 4⟩, 2) ∧
    should_send_alert (some 0) 0 0 = true := by
  refine ⟨rfl, ?_, by norm_num [should_send_alert]⟩
  norm_num [poll_cycle, get_current_price, check_conditions, should_send_alert,
    PriceCondition.is_met, fan_out]
